import Mathlib

/-!
# Verification of `src/app/page.tsx` (my-profile-frontend)

A shallow embedding of the single client page: the `Post` record, the
state held by the `Home` component (`posts`, `loading`, `error`), the
`fetchPosts` routine (request issued, state transition on each fetch
outcome), and the render function mapping state to one of four branches
(loading / error / empty / post cards).

The source file contains two revisions of the page; the later one
(the one using `process.env.NEXT_PUBLIC_BACKEND_URL`, the
`instanceof Error` guard in the catch, and the longer message texts)
is the current code and is what is embedded here.

Conventions of the embedding:
* TypeScript `number` is modelled as `Int` (no arithmetic is performed
  on it by the page).
* `imageUrl?: string` is `Option String`; a JavaScript string-or-null
  value is `Option String`, and JS truthiness of such a value
  (`null`/`undefined` and `""` are falsy) is `strTruthy`.
* The asynchronous fetch is modelled by its three possible settled
  outcomes: a successful JSON array, a non-2xx HTTP status, or a
  rejection of `response.json()` (parse failure).  A parse failure
  carries `some msg` when the rejection value is an `Error` with
  message `msg`, and `none` when it is not an `Error` value.
* Locale-dependent presentation (the `toLocaleDateString` line) is not
  modelled; every field of a card that any claim mentions is.
-/

/-- The `Post` interface (source lines 90-101): a flat record; every
field is required except `imageUrl`, which is optional. -/
structure Post where
  id : Int
  title : String
  slug : String
  content : String
  excerpt : String
  imageUrl : Option String
  published : Bool
  createdAt : String
  updatedAt : String
  tags : List String
deriving Repr, DecidableEq

/-- The local view state of the `Home` component (source lines 104-106):
`useState<Post[]>([])`, `useState(true)`, `useState<string | null>(null)`. -/
structure HomeState where
  posts : List Post
  loading : Bool
  error : Option String
deriving Repr, DecidableEq

/-- The initial state on mount (source lines 104-106). -/
def initialState : HomeState :=
  { posts := [], loading := true, error := none }

/-- The settled outcome of the single `fetch` call:
success with a parsed array, a non-2xx HTTP status (`!response.ok`),
or a rejection of `response.json()`. -/
inductive FetchOutcome where
  | success (data : List Post)
  | httpError (status : Nat)
  | parseFailure (errMsg : Option String)
deriving Repr, DecidableEq

/-- JS truthiness of a string-or-null value: `null`/`undefined` and the
empty string are falsy. -/
def strTruthy : Option String → Bool
  | some s => s ≠ ""
  | none => false

/-- `process.env.NEXT_PUBLIC_BACKEND_URL || 'http://localhost:8080'`
(source line 115): `||` yields the fallback whenever the left operand is
falsy, i.e. unset or the empty string. -/
def backendUrl (env : Option String) : String :=
  if strTruthy env then env.getD "" else "http://localhost:8080"

/-- An HTTP request.  `fetch(url)` with no init object issues a GET. -/
structure Request where
  method : String
  url : String
deriving Repr, DecidableEq

/-- The request issued at source line 116:
``fetch(`${backendUrl}/api/posts`)``. -/
def requestOf (env : Option String) : Request :=
  { method := "GET", url := backendUrl env ++ "/api/posts" }

/-- The message of the error thrown at source line 120:
`` `HTTP error! status: ${response.status}` ``. -/
def httpErrorMessage (status : Nat) : String :=
  "HTTP error! status: " ++ toString status

/-- The catch clause (source lines 124-130): `err.message` when the
caught value is an `Error`, otherwise the fixed unknown-error text. -/
def caughtMessage : Option String → String
  | some m => m
  | none => "An unknown error occurred."

/-- The state transition performed by `fetchPosts` once the fetch
settles (source lines 110-135): on success `setPosts(data)`; on any
thrown error `setError(...)` via the catch clause; in every case the
finally clause runs `setLoading(false)`. -/
def fetchPostsSettle (o : FetchOutcome) (s : HomeState) : HomeState :=
  match o with
  | .success data =>
      { s with posts := data, loading := false }
  | .httpError status =>
      { s with error := some (caughtMessage (some (httpErrorMessage status))),
               loading := false }
  | .parseFailure errMsg =>
      { s with error := some (caughtMessage errMsg), loading := false }

/-- `fetchPosts` (source lines 110-135): issues exactly one request
(line 116; no fetch call appears in the catch or finally clause) and
performs the settle transition. -/
def fetchPosts (env : Option String) (o : FetchOutcome) (s : HomeState) :
    List Request × HomeState :=
  ([requestOf env], fetchPostsSettle o s)

/-- One page load: the effect has an empty dependency array
(source line 138, "this effect runs only once after the initial
render"), so it invokes `fetchPosts()` exactly once, on the initial
state. -/
def pageLoad (env : Option String) (o : FetchOutcome) :
    List Request × HomeState :=
  fetchPosts env o initialState

/-- A rendered post card (source lines 158-186): the optional image
(src and alt), the title heading, the excerpt paragraph, the tag
spans in order, and the Read-More link target. -/
structure Card where
  image : Option (String × String)
  title : String
  excerpt : String
  tags : List String
  readMoreHref : String
deriving Repr, DecidableEq

/-- Rendering one post as a card (source lines 158-186):
`{post.imageUrl && (<Image src={post.imageUrl} alt={post.title} ... />)}`
renders the image exactly when `post.imageUrl` is truthy; the title,
excerpt and tags are rendered unconditionally. -/
def renderCard (p : Post) : Card :=
  { image := if strTruthy p.imageUrl then some (p.imageUrl.getD "", p.title) else none,
    title := p.title,
    excerpt := p.excerpt,
    tags := p.tags,
    readMoreHref := "/blog/" ++ p.slug }

/-- The four render branches of the page (source lines 141-193). -/
inductive RenderBranch where
  | loadingMsg (text : String)
  | errorMsg (text : String)
  | emptyMsg (text : String)
  | postList (cards : List Card)
deriving Repr, DecidableEq

/-- The render body of `Home` (source lines 141-193):
`if (loading) return ...; if (error) return ...; if (posts.length === 0)
return ...;` and otherwise the card grid.  The `if (error)` test is JS
truthiness on a string-or-null value. -/
def render (s : HomeState) : RenderBranch :=
  if s.loading then
    .loadingMsg "Loading posts from backend..."
  else if strTruthy s.error then
    .errorMsg ("Error fetching data: " ++ s.error.getD "")
  else if s.posts.length = 0 then
    .emptyMsg "No posts found yet. Add some via the backend API!"
  else
    .postList (s.posts.map renderCard)

/-- The post cards contained in a render result (none outside the
card-grid branch). -/
def cardsOf : RenderBranch → List Card
  | .postList cs => cs
  | _ => []

/-- Discriminator: is this the loading branch? -/
def RenderBranch.isLoadingBranch : RenderBranch → Bool
  | .loadingMsg _ => true
  | _ => false

/-- Discriminator: is this the error branch? -/
def RenderBranch.isErrorBranch : RenderBranch → Bool
  | .errorMsg _ => true
  | _ => false

/-- Discriminator: is this the empty-state branch? -/
def RenderBranch.isEmptyBranch : RenderBranch → Bool
  | .emptyMsg _ => true
  | _ => false

/-- Discriminator: is this the card-grid branch? -/
def RenderBranch.isCardsBranch : RenderBranch → Bool
  | .postList _ => true
  | _ => false

/-! ## Helper lemmas -/

/-- The message built at source line 120 is never the empty string, so
the `if (error)` truthiness test at line 142 sees it as truthy. -/
lemma httpErrorMessage_ne_empty (status : Nat) : httpErrorMessage status ≠ "" := by
  intro h
  have hl := congrArg String.length h
  rw [httpErrorMessage, String.length_append] at hl
  have h20 : ("HTTP error! status: " : String).length = 20 := rfl
  have h0 : ("" : String).length = 0 := rfl
  rw [h20, h0] at hl
  omega

/-- After a successful fetch the cards shown are exactly the posts
mapped through `renderCard` (the empty-state branch shows no cards,
matching the empty map). -/
lemma cardsOf_success (env : Option String) (data : List Post) :
    cardsOf (render (pageLoad env (FetchOutcome.success data)).2)
      = data.map renderCard := by
  cases data with
  | nil => rfl
  | cons a l => rfl

/-! ## Claim theorems -/

/-- C1: for every successful fetch whose body parses as a JSON array of
N `Post` records, the rendered view contains exactly N post cards, and
the i-th card displays the title, excerpt, and full tag list of the
i-th record, in array order. -/
theorem c1_success_renders_matching_cards (env : Option String)
    (data : List Post) (i : Nat) :
    (cardsOf (render (pageLoad env (FetchOutcome.success data)).2)).length
        = data.length ∧
    (cardsOf (render (pageLoad env (FetchOutcome.success data)).2))[i]?.map Card.title
        = data[i]?.map Post.title ∧
    (cardsOf (render (pageLoad env (FetchOutcome.success data)).2))[i]?.map Card.excerpt
        = data[i]?.map Post.excerpt ∧
    (cardsOf (render (pageLoad env (FetchOutcome.success data)).2))[i]?.map Card.tags
        = data[i]?.map Post.tags := by
  have hb := cardsOf_success env data
  refine ⟨by rw [hb, List.length_map], ?_, ?_, ?_⟩ <;>
  · rw [hb, List.getElem?_map, Option.map_map]
    cases data[i]? <;> simp [Function.comp, renderCard]

/-- C2: for every fetch that resolves with a non-2xx HTTP status, the
view renders the error branch and zero post cards, and the posts state
remains the initial empty array. -/
theorem c2_http_error_renders_error_branch (env : Option String) (status : Nat) :
    ((pageLoad env (FetchOutcome.httpError status)).2).posts = [] ∧
    render (pageLoad env (FetchOutcome.httpError status)).2
      = RenderBranch.errorMsg ("Error fetching data: " ++ httpErrorMessage status) ∧
    cardsOf (render (pageLoad env (FetchOutcome.httpError status)).2) = [] := by
  have hst : (pageLoad env (FetchOutcome.httpError status)).2
      = { posts := [], loading := false,
          error := some (httpErrorMessage status) } := rfl
  have hr : render (pageLoad env (FetchOutcome.httpError status)).2
      = RenderBranch.errorMsg ("Error fetching data: " ++ httpErrorMessage status) := by
    rw [hst]
    simp [render, strTruthy, httpErrorMessage_ne_empty status]
  exact ⟨by rw [hst], hr, by rw [hr]; rfl⟩

/-- C3: for every successful fetch whose body is an empty JSON array,
the view renders the empty-state message, no post cards, and neither
the loading nor the error branch. -/
theorem c3_empty_array_renders_empty_state (env : Option String) :
    render (pageLoad env (FetchOutcome.success [])).2
      = RenderBranch.emptyMsg "No posts found yet. Add some via the backend API!" ∧
    cardsOf (render (pageLoad env (FetchOutcome.success [])).2) = [] ∧
    (render (pageLoad env (FetchOutcome.success [])).2).isLoadingBranch = false ∧
    (render (pageLoad env (FetchOutcome.success [])).2).isErrorBranch = false :=
  ⟨rfl, rfl, rfl, rfl⟩

/-- C4 counterexample: two failure outcomes (HTTP 404 and HTTP 500)
both reach the error branch, yet the rendered messages differ, so the
error message is not one fixed string across failures. -/
theorem c4_counterexample :
    (render (pageLoad none (FetchOutcome.httpError 404)).2).isErrorBranch = true ∧
    (render (pageLoad none (FetchOutcome.httpError 500)).2).isErrorBranch = true ∧
    decide (render (pageLoad none (FetchOutcome.httpError 404)).2
        = render (pageLoad none (FetchOutcome.httpError 500)).2) = false :=
  ⟨rfl, rfl, rfl⟩

/-- C4 (amended): every non-2xx HTTP status reaches the error branch,
and so does every parse failure whose caught message is truthy; the
displayed text is the fixed label followed by failure-specific detail,
and the page issues exactly one request (no retry) in either case. -/
theorem c4_failures_render_error_branch (env : Option String) (status : Nat)
    (m : Option String) (hm : strTruthy (some (caughtMessage m)) = true) :
    render (pageLoad env (FetchOutcome.httpError status)).2
      = RenderBranch.errorMsg ("Error fetching data: " ++ httpErrorMessage status) ∧
    render (pageLoad env (FetchOutcome.parseFailure m)).2
      = RenderBranch.errorMsg ("Error fetching data: " ++ caughtMessage m) ∧
    (pageLoad env (FetchOutcome.httpError status)).1.length = 1 ∧
    (pageLoad env (FetchOutcome.parseFailure m)).1.length = 1 := by
  have h1 : render (pageLoad env (FetchOutcome.httpError status)).2
      = RenderBranch.errorMsg ("Error fetching data: " ++ httpErrorMessage status) := by
    have hst : (pageLoad env (FetchOutcome.httpError status)).2
        = { posts := [], loading := false,
            error := some (httpErrorMessage status) } := rfl
    rw [hst]
    simp [render, strTruthy, httpErrorMessage_ne_empty status]
  have h2 : render (pageLoad env (FetchOutcome.parseFailure m)).2
      = RenderBranch.errorMsg ("Error fetching data: " ++ caughtMessage m) := by
    have hst : (pageLoad env (FetchOutcome.parseFailure m)).2
        = { posts := [], loading := false,
            error := some (caughtMessage m) } := rfl
    rw [hst]
    simp only [render]
    rw [if_neg (by simp), if_pos (by simpa [strTruthy] using hm)]
    rfl
  exact ⟨h1, h2, rfl, rfl⟩

/-- C4 witness: the amended theorem applied at HTTP status 404 and at a
non-`Error` parse rejection, whose caught message is the fixed
unknown-error text and is truthy. -/
theorem c4_failures_render_error_branch_witness :
    strTruthy (some (caughtMessage none)) = true ∧
    render (pageLoad none (FetchOutcome.parseFailure none)).2
      = RenderBranch.errorMsg ("Error fetching data: " ++ caughtMessage none) :=
  ⟨by decide, (c4_failures_render_error_branch none 404 none (by decide)).2.1⟩

/-- C5: every page load issues a GET to the backend base URL
concatenated with "/api/posts"; the base URL comes from the
environment-style value when that is truthy and defaults to the local
placeholder when it is unset. -/
theorem c5_request_is_get_api_posts (env : Option String) (o : FetchOutcome)
    (u : String) (hu : strTruthy (some u) = true) :
    (pageLoad env o).1
      = [{ method := "GET", url := backendUrl env ++ "/api/posts" }] ∧
    backendUrl none = "http://localhost:8080" ∧
    backendUrl (some u) = u := by
  refine ⟨rfl, rfl, ?_⟩
  simp [backendUrl, hu]

/-- C5 witness: the request theorem applied at a concrete configured
base URL. -/
theorem c5_request_is_get_api_posts_witness :
    strTruthy (some "https://backend.example.com") = true ∧
    backendUrl (some "https://backend.example.com") = "https://backend.example.com" :=
  ⟨by decide,
    (c5_request_is_get_api_posts none (FetchOutcome.success [])
      "https://backend.example.com" (by decide)).2.2⟩

/-- C6: every page load issues exactly one request — the effect runs
once on mount and `fetchPosts` contains a single fetch call, so the
request list of a page load is a one-element list for every outcome. -/
theorem c6_single_request_per_load (env : Option String) (o : FetchOutcome) :
    (pageLoad env o).1.length = 1 ∧ (pageLoad env o).1 = [requestOf env] :=
  ⟨rfl, rfl⟩

/-- C7 counterexample: in the state with `loading` false, `error` set
to the empty string and no posts, the error value is set yet the
render is the empty-state branch, not the error branch — the code
tests JS truthiness, not whether the error is set. -/
theorem c7_counterexample :
    (HomeState.mk [] false (some "")).error.isSome = true ∧
    (render (HomeState.mk [] false (some ""))).isErrorBranch = false ∧
    (render (HomeState.mk [] false (some ""))).isEmptyBranch = true :=
  ⟨rfl, rfl, rfl⟩

/-- C7 (amended): the render function maps every state to exactly one
of four mutually exclusive branches, tested in precedence order:
loading if the loading flag is true; else error if the error value is
truthy (set to a non-empty string); else empty-state if the posts list
is empty; else the card grid. -/
theorem c7_branch_precedence (s : HomeState) :
    (render s).isLoadingBranch = s.loading ∧
    (render s).isErrorBranch = (!s.loading && strTruthy s.error) ∧
    (render s).isEmptyBranch
      = (!s.loading && !strTruthy s.error && s.posts.isEmpty) ∧
    (render s).isCardsBranch
      = (!s.loading && !strTruthy s.error && !s.posts.isEmpty) ∧
    (cond (render s).isLoadingBranch 1 0) + (cond (render s).isErrorBranch 1 0)
      + (cond (render s).isEmptyBranch 1 0)
      + (cond (render s).isCardsBranch 1 0) = 1 := by
  obtain ⟨ps, l, e⟩ := s
  cases l with
  | true =>
    simp [render, RenderBranch.isLoadingBranch, RenderBranch.isErrorBranch,
      RenderBranch.isEmptyBranch, RenderBranch.isCardsBranch]
  | false =>
    cases he : strTruthy e with
    | true =>
      simp [render, he, RenderBranch.isLoadingBranch, RenderBranch.isErrorBranch,
        RenderBranch.isEmptyBranch, RenderBranch.isCardsBranch]
    | false =>
      cases ps with
      | nil =>
        simp [render, he, RenderBranch.isLoadingBranch, RenderBranch.isErrorBranch,
          RenderBranch.isEmptyBranch, RenderBranch.isCardsBranch]
      | cons a t =>
        simp [render, he, RenderBranch.isLoadingBranch, RenderBranch.isErrorBranch,
          RenderBranch.isEmptyBranch, RenderBranch.isCardsBranch]

/-- C8: a `Post` is a flat record with exactly the ten listed fields —
each constructor argument is recovered by the corresponding projection,
and two posts are equal exactly when all ten fields agree; the image
URL is the one optional field (it accepts `none`), every other field is
required and total. -/
theorem c8_post_is_flat_ten_field_record (i : Int) (t sl c e : String)
    (img : Option String) (pub : Bool) (ca ua : String) (tg : List String) :
    ((Post.mk i t sl c e img pub ca ua tg).id = i ∧
     (Post.mk i t sl c e img pub ca ua tg).title = t ∧
     (Post.mk i t sl c e img pub ca ua tg).slug = sl ∧
     (Post.mk i t sl c e img pub ca ua tg).content = c ∧
     (Post.mk i t sl c e img pub ca ua tg).excerpt = e ∧
     (Post.mk i t sl c e img pub ca ua tg).imageUrl = img ∧
     (Post.mk i t sl c e img pub ca ua tg).published = pub ∧
     (Post.mk i t sl c e img pub ca ua tg).createdAt = ca ∧
     (Post.mk i t sl c e img pub ca ua tg).updatedAt = ua ∧
     (Post.mk i t sl c e img pub ca ua tg).tags = tg) ∧
    (Post.mk i t sl c e none pub ca ua tg).imageUrl = none ∧
    ∀ p q : Post, p = q ↔
      (p.id = q.id ∧ p.title = q.title ∧ p.slug = q.slug ∧
       p.content = q.content ∧ p.excerpt = q.excerpt ∧
       p.imageUrl = q.imageUrl ∧ p.published = q.published ∧
       p.createdAt = q.createdAt ∧ p.updatedAt = q.updatedAt ∧
       p.tags = q.tags) := by
  refine ⟨⟨rfl, rfl, rfl, rfl, rfl, rfl, rfl, rfl, rfl, rfl⟩, rfl, ?_⟩
  intro p q
  cases p
  cases q
  simp [Post.mk.injEq]

/-- C9: for every fetch outcome and every pre-state, the finally clause
clears the loading flag once the fetch settles, so the loading branch
is never rendered after the request completes. -/
theorem c9_loading_cleared_on_settle (o : FetchOutcome) (s : HomeState) :
    (fetchPostsSettle o s).loading = false ∧
    (render (fetchPostsSettle o s)).isLoadingBranch = false := by
  have h : (fetchPostsSettle o s).loading = false := by
    cases o <;> rfl
  refine ⟨h, ?_⟩
  simp only [render, h]
  split
  · simp_all
  split
  · rfl
  split
  · rfl
  · rfl

/-- C10: for every rendered post card, the image element appears iff
the post's optional image URL is present and non-empty, and a card
without an image URL still shows its title, excerpt and tags. -/
theorem c10_card_image_iff_truthy_url (p : Post) :
    ((renderCard p).image.isSome = true ↔
      ∃ s, p.imageUrl = some s ∧ s ≠ "") ∧
    (renderCard p).title = p.title ∧
    (renderCard p).excerpt = p.excerpt ∧
    (renderCard p).tags = p.tags := by
  refine ⟨?_, rfl, rfl, rfl⟩
  cases himg : p.imageUrl with
  | none => simp [renderCard, strTruthy, himg]
  | some s =>
    by_cases hs : s = ""
    · subst hs
      simp [renderCard, strTruthy, himg]
    · simp [renderCard, strTruthy, himg, hs]
